import Mathlib

/-!
Shallow embedding of the `Gestuelle` gesture recognizer
(`src/gestuelle.ts`, the feature-complete variant supporting tap, press,
pan, swipe and two-contact pinch).

Coordinates, timestamps and configuration values are modelled as exact
rationals.  Wherever the source computes `Math.sqrt(s)` only to compare it
against a bound `b`, the embedding keeps the squared quantity `s` and uses
the exact characterizations `sqrtGeB` / `sqrtLeB` (justified against
`Real.sqrt` below).  Event payload fields that are square roots in the
source (`distance`, `velocity`) are carried as their squares
(`distSq`, `velocitySq`).  The swipe velocity computation divides by the
gesture duration, which in JavaScript can produce `Infinity`/`NaN`; that
arithmetic is modelled exactly by the `ENum` type.
-/

set_option maxRecDepth 8000

namespace Gestuelle

/-- The recognizer states of the FSM (`GestureState` enum referenced by
`gestuelle.ts`). -/
inductive GestureState where
  | IDLE
  | POSSIBLE_TAP
  | PRESSING
  | PANNING
  | SWIPING
  | POSSIBLE_MULTI_TOUCH
  | PINCHING
  | CANCELED
  deriving DecidableEq, Repr

/-- Swipe direction tags (`SwipeDirection` in `types.ts`). -/
inductive SwipeDirection where
  | right
  | left
  | down
  | up
  deriving DecidableEq, Repr

/-- One tracked contact (`ActivePointer` interface in `gestuelle.ts`). -/
structure ActivePointer where
  id : Nat
  startX : ℚ
  startY : ℚ
  currentX : ℚ
  currentY : ℚ
  pointerType : String
  downTime : ℚ
  deriving DecidableEq, Repr

/-- JavaScript-style extended number: a finite rational, `Infinity`,
`-Infinity` or `NaN`.  Used for the swipe velocity computation, which is the
only place the source can divide by zero. -/
inductive ENum where
  | fin (q : ℚ)
  | posInf
  | negInf
  | nan
  deriving DecidableEq, Repr

/-- JavaScript division `a / b` on rationals: division by zero yields a
signed infinity, and `0 / 0` yields `NaN`. -/
def jsDiv (a b : ℚ) : ENum :=
  if b ≠ 0 then .fin (a / b)
  else if 0 < a then .posInf
  else if a < 0 then .negInf
  else .nan

/-- Squaring on extended numbers (`x ** 2`). -/
def sqE : ENum → ENum
  | .fin q => .fin (q ^ 2)
  | .posInf => .posInf
  | .negInf => .posInf
  | .nan => .nan

/-- Addition on extended numbers (IEEE semantics for the cases that can
arise from sums of squares). -/
def addE : ENum → ENum → ENum
  | .nan, _ => .nan
  | _, .nan => .nan
  | .fin a, .fin b => .fin (a + b)
  | .posInf, .negInf => .nan
  | .negInf, .posInf => .nan
  | .posInf, _ => .posInf
  | _, .posInf => .posInf
  | .negInf, _ => .negInf
  | .fin _, .negInf => .negInf

/-- Whether an extended number is a finite value. -/
def isFiniteE : ENum → Bool
  | .fin _ => true
  | _ => false

/-- Comparison `Math.sqrt s >= b` for a rational squared quantity `s ≥ 0`
and bound `b`: true iff `b ≤ 0` or `b ^ 2 ≤ s`. -/
def sqrtGeB (s b : ℚ) : Bool :=
  b ≤ 0 || b ^ 2 ≤ s

/-- Comparison `Math.sqrt s <= b` for a rational squared quantity `s ≥ 0`
and bound `b`: true iff `0 ≤ b` and `s ≤ b ^ 2`. -/
def sqrtLeB (s b : ℚ) : Bool :=
  0 ≤ b && s ≤ b ^ 2

/-- Comparison `Math.sqrt s >= b` where the squared quantity `s` is an extended
number (the swipe velocity check `velocity >= minSwipeVelocity`):
`NaN` compares false, `Infinity` compares true. -/
def sqrtGeE : ENum → ℚ → Bool
  | .nan, _ => false
  | .posInf, _ => true
  | .negInf, _ => false
  | .fin q, b => if q < 0 then false else sqrtGeB q b

/-- A gesture notification dispatched on the element, with its payload
(the `detail` objects built in `gestuelle.ts`; the `distance` and
`velocity` square-root fields are carried as their squares). -/
inductive Notif where
  | panstart (x y deltaX deltaY offsetX offsetY : ℚ) (pointerType : String)
  | panmove (x y deltaX deltaY offsetX offsetY : ℚ) (pointerType : String)
  | panend (x y deltaX deltaY offsetX offsetY : ℚ) (pointerType : String)
  | pancancel (x y deltaX deltaY offsetX offsetY : ℚ) (pointerType : String)
  | tap (x y : ℚ) (pointerType : String)
  | pressstart (x y : ℚ) (pointerType : String) (duration : ℚ)
  | pressend (x y : ℚ) (pointerType : String) (duration : ℚ)
  | presscancel (x y : ℚ) (pointerType : String) (duration : ℚ)
  | swipe (x y : ℚ) (pointerType : String) (velocityX velocityY velocitySq : ENum)
      (direction : SwipeDirection) (distSq : ℚ)
  | pinchstart (x y : ℚ) (pointerType : String) (centerX centerY distSq : ℚ)
  | pinchmove (x y : ℚ) (pointerType : String) (centerX centerY distSq : ℚ)
  | pinchend (x y : ℚ) (pointerType : String) (centerX centerY distSq : ℚ)
  deriving DecidableEq, Repr

/-- Resolved gesture configuration: each option of `GestuelleConfig` with
its `??` default from the source already applied. -/
structure GestuelleConfig where
  panThreshold : ℚ := 5
  tapMaxDuration : ℚ := 250
  tapMaxDistance : ℚ := 10
  pressMinDuration : ℚ := 500
  pressMaxDistance : ℚ := 10
  swipeMinVelocity : ℚ := 3 / 10
  swipeMinDistance : ℚ := 30
  swipeMaxDuration : ℚ := 300
  pinchThreshold : ℚ := 5
  deriving DecidableEq, Repr

/-- The configuration with every option left at its default. -/
def defaultConfig : GestuelleConfig := {}

/-- The recognizer state together with its external collaborators: the
insertion-ordered pointer map (`activePointers`), the FSM state, the
stored press-timer handle (`pressTimeoutId`), the scheduler's set of
armed timer handles with a fresh-handle counter, and the set of captured
pointer ids. -/
structure GWorld where
  activePointers : List ActivePointer
  state : GestureState
  pressTimeoutId : Option Nat
  armedTimers : List Nat
  nextTimerId : Nat
  captured : List Nat
  deriving DecidableEq, Repr

/-- The freshly constructed recognizer: no contacts, `IDLE`, no timer. -/
def initWorld : GWorld :=
  { activePointers := []
    state := .IDLE
    pressTimeoutId := none
    armedTimers := []
    nextTimerId := 0
    captured := [] }

/-- Map `set`: replace in place if the id is present (JavaScript `Map`
keeps the original insertion position), otherwise append. -/
def pointersSet (l : List ActivePointer) (p : ActivePointer) : List ActivePointer :=
  if l.any (fun q => q.id = p.id) then
    l.map (fun q => if q.id = p.id then p else q)
  else
    l ++ [p]

/-- Map `get`: the tracked pointer with the given id, if any. -/
def pointersGet (l : List ActivePointer) (pid : Nat) : Option ActivePointer :=
  l.find? (fun q => q.id = pid)

/-- Map `delete`: remove the pointer with the given id. -/
def pointersDelete (l : List ActivePointer) (pid : Nat) : List ActivePointer :=
  l.filter (fun q => q.id ≠ pid)

/-- Capture primitive `setPointerCapture`: add a pointer id to the captured set (idempotent). -/
def capAdd (l : List Nat) (pid : Nat) : List Nat :=
  if pid ∈ l then l else l ++ [pid]

/-- Capture primitive `releasePointerCapture`: remove a pointer id from the captured set. -/
def capRemove (l : List Nat) (pid : Nat) : List Nat :=
  l.filter (fun c => c ≠ pid)

/-- Method `clearPressTimeout`: if a press-timer handle is stored, cancel it with
the scheduler and clear the stored handle. -/
def clearPressTimeout (w : GWorld) : GWorld :=
  match w.pressTimeoutId with
  | some h =>
      { w with
        armedTimers := w.armedTimers.filter (fun t => t ≠ h)
        pressTimeoutId := none }
  | none => w

/-- Method `resetGestureState`: back to `IDLE`, release capture of every tracked
pointer, clear the pointer map, cancel any pending press timer. -/
def resetGestureState (w : GWorld) : GWorld :=
  clearPressTimeout
    { w with
      state := .IDLE
      captured := w.captured.filter (fun c => ¬ w.activePointers.any (fun p => p.id = c))
      activePointers := [] }

/-- Handler `onPointerDown`: track the contact (overwriting an entry with the same
id), then branch on the resulting map size exactly as the source does.
The third-or-later branch returns before capturing. -/
def onPointerDown (cfg : GestuelleConfig) (w : GWorld) (pid : Nat) (x y : ℚ)
    (pt : String) (now : ℚ) : GWorld × List Notif :=
  let ap : ActivePointer :=
    { id := pid, startX := x, startY := y, currentX := x, currentY := y
      pointerType := pt, downTime := now }
  let pointers := pointersSet w.activePointers ap
  if pointers.length = 1 then
    -- First pointer down: potential single-touch gestures; arm the press
    -- timer for `press.minDuration` (default 500).
    let w1 : GWorld :=
      { w with
        activePointers := pointers
        state := .POSSIBLE_TAP
        pressTimeoutId := some w.nextTimerId
        armedTimers := w.armedTimers ++ [w.nextTimerId]
        nextTimerId := w.nextTimerId + 1 }
    ({ w1 with captured := capAdd w1.captured pid }, [])
  else if pointers.length = 2 then
    -- Second pointer down: potential multi-touch gestures.
    let w1 := clearPressTimeout { w with activePointers := pointers }
    let ns : List Notif :=
      match w1.state with
      | .PANNING =>
          match pointers.head? with
          | some primary =>
              [.pancancel primary.currentX primary.currentY 0 0
                (primary.currentX - primary.startX) (primary.currentY - primary.startY)
                primary.pointerType]
          | none => []
      | _ => []
    let w2 : GWorld := { w1 with state := .POSSIBLE_MULTI_TOUCH }
    ({ w2 with captured := capAdd w2.captured pid }, ns)
  else
    ({ w with activePointers := pointers }, [])

/-- Handler `onPressTimeout`: the press-timer callback.  Fires only usefully in
`POSSIBLE_TAP`; checks the sole contact's drift against
`press.maxDistance` and either enters `PRESSING` (emitting `pressstart`)
or resets.  Every path ends by nulling the stored handle. -/
def onPressTimeout (cfg : GestuelleConfig) (w : GWorld) (now : ℚ) :
    GWorld × List Notif :=
  match w.state with
  | .POSSIBLE_TAP =>
    (match w.activePointers.head? with
    | some pointer =>
        let distSq := (pointer.currentX - pointer.startX) ^ 2
          + (pointer.currentY - pointer.startY) ^ 2
        if sqrtLeB distSq cfg.pressMaxDistance then
          ({ w with state := .PRESSING, pressTimeoutId := none },
            [.pressstart pointer.currentX pointer.currentY pointer.pointerType
              (now - pointer.downTime)])
        else
          ({ resetGestureState w with pressTimeoutId := none }, [])
    | none => ({ w with pressTimeoutId := none }, []))
  | _ =>
    ({ w with pressTimeoutId := none }, [])

/-- Handler `onPointerMove`.  The source updates `pointer.currentX/currentY` to the
event position *before* the two-contact branch; in the single-contact path
it then computes `deltaX = event.clientX - pointer.currentX` against the
already-updated position (so the dispatched delta is the literal result of
that subtraction). -/
def onPointerMove (cfg : GestuelleConfig) (w : GWorld) (pid : Nat) (x y : ℚ)
    (now : ℚ) : GWorld × List Notif :=
  match pointersGet w.activePointers pid with
  | none => (w, [])
  | some pointer =>
      -- Update the values of the moved pointer
      let pointer1 : ActivePointer := { pointer with currentX := x, currentY := y }
      let pointers1 := pointersSet w.activePointers pointer1
      let w1 : GWorld := { w with activePointers := pointers1 }
      if pointers1.length = 2 then
        match pointers1.find? (fun p => p.id ≠ pid) with
        | some otherPointer =>
            let centerX := (pointer1.startX + otherPointer.startX) / 2
            let centerY := (pointer1.startY + otherPointer.startY) / 2
            let distSq := (otherPointer.currentX - pointer1.currentX) ^ 2
              + (otherPointer.currentY - pointer1.currentY) ^ 2
            let r2 :=
              match w1.state with
              | .POSSIBLE_MULTI_TOUCH =>
                  if sqrtGeB distSq cfg.pinchThreshold then
                    ({ w1 with state := .PINCHING },
                      [Notif.pinchstart centerX centerY pointer1.pointerType
                        centerX centerY distSq])
                  else (w1, ([] : List Notif))
              | _ => (w1, ([] : List Notif))
            match r2.1.state with
            | .PINCHING =>
                (r2.1, r2.2 ++ [Notif.pinchmove centerX centerY pointer1.pointerType
                  centerX centerY distSq])
            | _ => (r2.1, r2.2)
        | none => (w1, [])
      else
        let deltaX := x - pointer1.currentX
        let deltaY := y - pointer1.currentY
        let offsetX := pointer1.currentX - pointer1.startX
        let offsetY := pointer1.currentY - pointer1.startY
        let distSq := offsetX ^ 2 + offsetY ^ 2
        match w1.state with
        | .POSSIBLE_TAP =>
            -- If movement exceeds the pan threshold, starts it
            if sqrtGeB distSq cfg.panThreshold then
              (clearPressTimeout { w1 with state := .PANNING },
                [.panstart pointer1.currentX pointer1.currentY deltaX deltaY
                  offsetX offsetY pointer1.pointerType])
            else (w1, [])
        | .PRESSING =>
            -- If a press moves too far, it cancels the press and might become a pan
            if sqrtGeB distSq cfg.pressMaxDistance then
              ({ w1 with state := .PANNING },
                [.presscancel pointer1.currentX pointer1.currentY
                    pointer1.pointerType (now - pointer1.downTime),
                 .panstart pointer1.currentX pointer1.currentY deltaX deltaY
                    offsetX offsetY pointer1.pointerType])
            else (w1, [])
        | .PANNING =>
            (w1, [.panmove pointer1.currentX pointer1.currentY deltaX deltaY
              offsetX offsetY pointer1.pointerType])
        | _ => (w1, [])

/-- Handler `onPointerUp`: release capture, stop tracking, then branch on how many
contacts remain.  With one remaining contact only `PINCHING` produces
output (a `pinchend`) and the handler returns without resetting; with zero
remaining the single-contact end-of-gesture logic runs; in every other
case the handler falls through to `resetGestureState`. -/
def onPointerUp (cfg : GestuelleConfig) (w : GWorld) (pid : Nat) (now : ℚ) :
    GWorld × List Notif :=
  match pointersGet w.activePointers pid with
  | none => (w, [])
  | some pointer =>
      let w1 : GWorld :=
        { w with
          captured := capRemove w.captured pid
          activePointers := pointersDelete w.activePointers pid }
      if w1.activePointers.length = 1 then
        match w1.activePointers.head? with
        | some otherPointer =>
            let centerX := (pointer.startX + otherPointer.startX) / 2
            let centerY := (pointer.startY + otherPointer.startY) / 2
            let distSq := (otherPointer.currentX - pointer.currentX) ^ 2
              + (otherPointer.currentY - pointer.currentY) ^ 2
            match w1.state with
            | .PINCHING =>
                (w1, [.pinchend pointer.currentX pointer.currentY
                  pointer.pointerType centerX centerY distSq])
            | _ => (w1, [])
        | none => (w1, [])
      else if w1.activePointers.length = 0 then
        let offsetX := pointer.currentX - pointer.startX
        let offsetY := pointer.currentY - pointer.startY
        let distSq := offsetX ^ 2 + offsetY ^ 2
        let duration := now - pointer.downTime
        match w1.state with
        | .POSSIBLE_TAP =>
            let w2 := clearPressTimeout w1
            if duration ≤ cfg.tapMaxDuration ∧ sqrtLeB distSq cfg.tapMaxDistance then
              (resetGestureState w2,
                [.tap pointer.currentX pointer.currentY pointer.pointerType])
            else (resetGestureState w2, [])
        | .PRESSING =>
            (resetGestureState (clearPressTimeout w1),
              [.pressend pointer.currentX pointer.currentY pointer.pointerType duration])
        | .PANNING =>
            let velocityX := jsDiv offsetX duration
            let velocityY := jsDiv offsetY duration
            let velocitySq := addE (sqE velocityX) (sqE velocityY)
            if sqrtGeE velocitySq cfg.swipeMinVelocity
                ∧ sqrtGeB distSq cfg.swipeMinDistance
                ∧ duration ≤ cfg.swipeMaxDuration then
              let direction : SwipeDirection :=
                if |offsetX| > |offsetY| then
                  if offsetX > 0 then .right else .left
                else
                  if offsetY > 0 then .down else .up
              (resetGestureState { w1 with state := .SWIPING },
                [.swipe pointer.currentX pointer.currentY pointer.pointerType
                  velocityX velocityY velocitySq direction distSq])
            else
              -- Not a swipe, just a regular pan end
              (resetGestureState w1,
                [.panend pointer.currentX pointer.currentY 0 0 offsetX offsetY
                  pointer.pointerType])
        | _ => (resetGestureState w1, [])
      else
        (resetGestureState w1, [])

/-- Handler `onPointerCancel`: release capture, stop tracking, cancel the press
timer, emit the state-appropriate cancel notification and reset. -/
def onPointerCancel (cfg : GestuelleConfig) (w : GWorld) (pid : Nat) (now : ℚ) :
    GWorld × List Notif :=
  match pointersGet w.activePointers pid with
  | none => (w, [])
  | some pointer =>
      let w1 : GWorld :=
        clearPressTimeout
          { w with
            captured := capRemove w.captured pid
            activePointers := pointersDelete w.activePointers pid }
      let ns : List Notif :=
        match w1.state with
        | .POSSIBLE_TAP =>
            [.presscancel pointer.currentX pointer.currentY pointer.pointerType
              (now - pointer.downTime)]
        | .PRESSING =>
            [.presscancel pointer.currentX pointer.currentY pointer.pointerType
              (now - pointer.downTime)]
        | .PANNING =>
            [.pancancel pointer.currentX pointer.currentY 0 0
              (pointer.currentX - pointer.startX) (pointer.currentY - pointer.startY)
              pointer.pointerType]
        | _ => []
      (resetGestureState w1, ns)

/-- A raw input to the recognizer: a contact event (with the clock value
at which the handler runs) or the firing of an armed timer handle. -/
inductive PEvent where
  | pdown (pid : Nat) (x y : ℚ) (pt : String) (now : ℚ)
  | pmove (pid : Nat) (x y : ℚ) (now : ℚ)
  | pup (pid : Nat) (now : ℚ)
  | pcancel (pid : Nat) (now : ℚ)
  | pfire (h : Nat) (now : ℚ)
  deriving DecidableEq, Repr

/-- One step of the recognizer: dispatch the event to its handler.  A
timer handle fires only if it is still armed with the scheduler; firing
removes it from the armed set before the callback runs. -/
def step (cfg : GestuelleConfig) (w : GWorld) : PEvent → GWorld × List Notif
  | .pdown pid x y pt now => onPointerDown cfg w pid x y pt now
  | .pmove pid x y now => onPointerMove cfg w pid x y now
  | .pup pid now => onPointerUp cfg w pid now
  | .pcancel pid now => onPointerCancel cfg w pid now
  | .pfire h now =>
      if h ∈ w.armedTimers then
        onPressTimeout cfg { w with armedTimers := w.armedTimers.filter (fun t => t ≠ h) } now
      else (w, [])

/-- Run a sequence of events, accumulating the dispatched notifications. -/
def runEvents (cfg : GestuelleConfig) (w : GWorld) : List PEvent → GWorld × List Notif
  | [] => (w, [])
  | e :: es =>
      let r1 := step cfg w e
      let r2 := runEvents cfg r1.1 es
      (r2.1, r1.2 ++ r2.2)

/-- A recognizer state is reachable if some event sequence produces it
from the initial state. -/
def Reachable (cfg : GestuelleConfig) (w : GWorld) : Prop :=
  ∃ es : List PEvent, (runEvents cfg initWorld es).1 = w

/-- Whether a notification is a `tap`. -/
def isTapNotif : Notif → Bool
  | .tap .. => true
  | _ => false

/-- Whether a notification is a `pressstart`. -/
def isPressStartNotif : Notif → Bool
  | .pressstart .. => true
  | _ => false

/-- Whether a notification is one of `panstart`, `panmove`, `panend`,
`pancancel`. -/
def isPanNotif : Notif → Bool
  | .panstart .. => true
  | .panmove .. => true
  | .panend .. => true
  | .pancancel .. => true
  | _ => false

/-- Whether a notification is a `pinchmove`. -/
def isPinchMoveNotif : Notif → Bool
  | .pinchmove .. => true
  | _ => false

/-- Number of notifications in a dispatch log matching a discriminator. -/
def countNotif (p : Notif → Bool) (ns : List Notif) : Nat :=
  (ns.filter p).length

/-- The event sequence of a single-contact gesture: one contact-down,
a list of moves (each `(x, y, t)`), one contact-up. -/
def singleContactTrace (pid : Nat) (pt : String) (x0 y0 t0 : ℚ)
    (moves : List (ℚ × ℚ × ℚ)) (tUp : ℚ) : List PEvent :=
  [.pdown pid x0 y0 pt t0]
    ++ moves.map (fun m => .pmove pid m.1 m.2.1 m.2.2)
    ++ [.pup pid tUp]

/-- The contact's final position in a single-contact trace: the last
move's coordinates, or the down position when there are no moves. -/
def finalPos (x0 y0 : ℚ) : List (ℚ × ℚ × ℚ) → ℚ × ℚ
  | [] => (x0, y0)
  | m :: ms => finalPos m.1 m.2.1 ms

/-- Claim C2 as stated: any single-contact sequence released before
`press.minDuration` with final distance within `tap.maxDistance` yields
exactly one `tap` and no `pressstart`/`pan*` notification. -/
def tapBeforePressClaim (cfg : GestuelleConfig) : Prop :=
  ∀ (pid : Nat) (pt : String) (x0 y0 t0 : ℚ) (moves : List (ℚ × ℚ × ℚ)) (tUp : ℚ),
    tUp - t0 < cfg.pressMinDuration →
    sqrtLeB (((finalPos x0 y0 moves).1 - x0) ^ 2 + ((finalPos x0 y0 moves).2 - y0) ^ 2)
      cfg.tapMaxDistance = true →
    countNotif isTapNotif (runEvents cfg initWorld (singleContactTrace pid pt x0 y0 t0 moves tUp)).2 = 1
      ∧ countNotif isPressStartNotif
          (runEvents cfg initWorld (singleContactTrace pid pt x0 y0 t0 moves tUp)).2 = 0
      ∧ countNotif isPanNotif
          (runEvents cfg initWorld (singleContactTrace pid pt x0 y0 t0 moves tUp)).2 = 0

/-- Claim C3 as stated: the recognizer state is consistent with the
tracked-contact count. -/
@[reducible] def stateContactConsistent (w : GWorld) : Prop :=
  (w.activePointers.length = 0 → w.state = .IDLE)
    ∧ ((w.state = .POSSIBLE_MULTI_TOUCH ∨ w.state = .PINCHING) →
        w.activePointers.length = 2)

/-- Claim C4 as stated: a contact-down arriving while two contacts are
tracked leaves the recognizer entirely unchanged and dispatches nothing. -/
def thirdContactIgnoredClaim (cfg : GestuelleConfig) : Prop :=
  ∀ w, Reachable cfg w → w.activePointers.length = 2 →
    ∀ (pid : Nat) (x y : ℚ) (pt : String) (t : ℚ),
      (∀ p ∈ w.activePointers, p.id ≠ pid) →
      (step cfg w (.pdown pid x y pt t)).1 = w
        ∧ (step cfg w (.pdown pid x y pt t)).2 = []

/-- Claim C6 as stated: the move on which the inter-contact distance first
reaches the pinch threshold dispatches exactly one `pinchstart` and no
`pinchmove`. -/
def pinchStartExclusiveClaim (cfg : GestuelleConfig) : Prop :=
  ∀ w, Reachable cfg w → w.state = .POSSIBLE_MULTI_TOUCH →
    ∀ (pid : Nat) (x y now : ℚ),
      ((step cfg w (.pmove pid x y now)).1).state = .PINCHING →
      countNotif isPinchMoveNotif (step cfg w (.pmove pid x y now)).2 = 0

/-- Claim C8 as stated: at most one press-timer callback is outstanding in
every reachable state. -/
@[reducible] def atMostOneArmedTimer (w : GWorld) : Prop :=
  w.armedTimers.length ≤ 1

/-- A single-contact world in `POSSIBLE_TAP` right after the first
contact-down from the initial state: start `(x0, y0)`, current `(cx, cy)`,
press timer handle `0` armed. -/
def tapWorld (pid : Nat) (x0 y0 cx cy : ℚ) (pt : String) (t0 : ℚ) : GWorld :=
  { activePointers :=
      [{ id := pid, startX := x0, startY := y0, currentX := cx, currentY := cy
         pointerType := pt, downTime := t0 }]
    state := .POSSIBLE_TAP
    pressTimeoutId := some 0
    armedTimers := [0]
    nextTimerId := 1
    captured := [pid] }

/-- The armed-handle list matching a stored timer handle. -/
def timerList : Option Nat → List Nat
  | none => []
  | some h => [h]

/-- Timer bookkeeping invariant: the scheduler's armed handles are exactly
the stored `pressTimeoutId`, and no handle is stored once no contact is
tracked. -/
def timerInv (w : GWorld) : Prop :=
  w.armedTimers = timerList w.pressTimeoutId
    ∧ (w.activePointers.length = 0 → w.pressTimeoutId = none)

/-- An event is duplicate-free relative to a world when it is not a
contact-down reusing an already-tracked contact id. -/
def eventOk (w : GWorld) : PEvent → Bool
  | .pdown pid _ _ _ _ => w.activePointers.all (fun p => p.id ≠ pid)
  | _ => true

/-- A run is duplicate-free when every contact-down along it introduces a
fresh contact id. -/
def runOk (cfg : GestuelleConfig) (w : GWorld) : List PEvent → Bool
  | [] => true
  | e :: es => eventOk w e && runOk cfg (step cfg w e).1 es

/-- Soundness of `sqrtGeB`: it exactly decides `b ≤ Math.sqrt s`: the embedding's squared
comparison agrees with the source's square-root comparison. -/
theorem sqrtGeB_iff_real (s b : ℚ) :
    sqrtGeB s b = true ↔ (b : ℝ) ≤ Real.sqrt (s : ℝ) := by
  unfold sqrtGeB
  rcases le_or_lt b 0 with hb | hb
  · have hb' : (b : ℝ) ≤ 0 := by exact_mod_cast hb
    simp only [Bool.or_eq_true, decide_eq_true_eq]
    constructor
    · intro _
      exact hb'.trans (Real.sqrt_nonneg _)
    · intro _
      exact Or.inl hb
  · have hb' : (0 : ℝ) < (b : ℝ) := by exact_mod_cast hb
    rw [Real.le_sqrt' hb']
    simp only [Bool.or_eq_true, decide_eq_true_eq]
    constructor
    · intro h
      rcases h with h | h
      · exact absurd h (not_le.mpr hb)
      · exact_mod_cast h
    · intro h
      exact Or.inr (by exact_mod_cast h)

/-- Soundness of `sqrtLeB`: it exactly decides `Math.sqrt s ≤ b`: the embedding's squared
comparison agrees with the source's square-root comparison. -/
theorem sqrtLeB_iff_real (s b : ℚ) :
    sqrtLeB s b = true ↔ Real.sqrt (s : ℝ) ≤ (b : ℝ) := by
  unfold sqrtLeB
  rw [Real.sqrt_le_iff]
  simp only [Bool.and_eq_true, decide_eq_true_eq]
  constructor
  · intro h
    exact ⟨by exact_mod_cast h.1, by exact_mod_cast h.2⟩
  · intro h
    exact ⟨by exact_mod_cast h.1, by exact_mod_cast h.2⟩

/-- Setting a pointer whose id is fresh for the map appends it. -/
theorem pointersSet_fresh (l : List ActivePointer) (ap : ActivePointer)
    (h : ∀ p ∈ l, p.id ≠ ap.id) : pointersSet l ap = l ++ [ap] := by
  unfold pointersSet
  rw [if_neg]
  simp only [List.any_eq_true, decide_eq_true_eq, not_exists]
  intro p hmem
  exact h p hmem.1 hmem.2

/-- Setting a pointer whose id is already present keeps the map's length. -/
theorem pointersSet_length_of_mem (l : List ActivePointer) (ap : ActivePointer)
    (h : ∃ p ∈ l, p.id = ap.id) : (pointersSet l ap).length = l.length := by
  unfold pointersSet
  rw [if_pos]
  · exact List.length_map l _
  · simp only [List.any_eq_true, decide_eq_true_eq]
    exact h

/-- A successful map lookup returns an element of the map with the looked-up
id. -/
theorem pointersGet_some (l : List ActivePointer) (pid : Nat) (p : ActivePointer)
    (h : pointersGet l pid = some p) : p ∈ l ∧ p.id = pid := by
  unfold pointersGet at h
  exact ⟨List.mem_of_find?_eq_some h, by simpa using List.find?_some h⟩

/-- Cancelling the press timer commutes with replacing the pointer map. -/
theorem clearPressTimeout_set_pointers (w : GWorld) (ps : List ActivePointer) :
    clearPressTimeout { w with activePointers := ps }
      = { clearPressTimeout w with activePointers := ps } := by
  cases h : w.pressTimeoutId <;> simp [clearPressTimeout, h]

/-- Cancelling the press timer does not change the FSM state. -/
@[simp] theorem clearPressTimeout_state (w : GWorld) :
    (clearPressTimeout w).state = w.state := by
  cases h : w.pressTimeoutId <;> simp [clearPressTimeout, h]

/-- Cancelling the press timer does not change the captured set. -/
@[simp] theorem clearPressTimeout_captured (w : GWorld) :
    (clearPressTimeout w).captured = w.captured := by
  cases h : w.pressTimeoutId <;> simp [clearPressTimeout, h]

/-- Cancelling the press timer does not change the tracked contacts. -/
@[simp] theorem clearPressTimeout_pointers (w : GWorld) :
    (clearPressTimeout w).activePointers = w.activePointers := by
  cases h : w.pressTimeoutId <;> simp [clearPressTimeout, h]

/-- Cancelling the press timer does not change the handle counter. -/
@[simp] theorem clearPressTimeout_nextTimerId (w : GWorld) :
    (clearPressTimeout w).nextTimerId = w.nextTimerId := by
  cases h : w.pressTimeoutId <;> simp [clearPressTimeout, h]

/-- After cancelling, no press-timer handle is stored. -/
@[simp] theorem clearPressTimeout_timeoutId (w : GWorld) :
    (clearPressTimeout w).pressTimeoutId = none := by
  cases h : w.pressTimeoutId <;> simp [clearPressTimeout, h]

/-- C10: a contact-down reusing the id of the sole tracked contact
overwrites the tracked entry with a fresh start position and down time,
forces the state to `POSSIBLE_TAP` whatever it was, arms a fresh press
timer (without cancelling a previously armed one) and dispatches
nothing. -/
theorem C10_duplicate_down_restarts (cfg : GestuelleConfig) (w : GWorld)
    (p1 : ActivePointer) (x y : ℚ) (pt : String) (t : ℚ)
    (hw : w.activePointers = [p1]) :
    step cfg w (.pdown p1.id x y pt t) =
      ({ w with
          activePointers := [⟨p1.id, x, y, x, y, pt, t⟩]
          state := .POSSIBLE_TAP
          pressTimeoutId := some w.nextTimerId
          armedTimers := w.armedTimers ++ [w.nextTimerId]
          nextTimerId := w.nextTimerId + 1
          captured := capAdd w.captured p1.id }, []) := by
  simp [step, onPointerDown, hw, pointersSet]

/-- C10 witness: from a `PANNING` state with contact 1 tracked, a
contact-down reusing id 1 silently restarts recognition. -/
theorem C10_witness :
    step defaultConfig
      ⟨[⟨1, 0, 0, 5, 5, "m", 0⟩], .PANNING, none, [], 3, [1]⟩
      (.pdown 1 7 8 "m" 9)
      = (⟨[⟨1, 7, 8, 7, 8, "m", 9⟩], .POSSIBLE_TAP, some 3, [3], 4, [1]⟩, []) := by
  have h := C10_duplicate_down_restarts defaultConfig
    ⟨[⟨1, 0, 0, 5, 5, "m", 0⟩], .PANNING, none, [], 3, [1]⟩
    ⟨1, 0, 0, 5, 5, "m", 0⟩ 7 8 "m" 9 rfl
  simpa [capAdd] using h

/-- C9: a contact-down with a fresh id while exactly one contact is
tracked appends and captures the new contact, cancels the press timer,
sets the state to `POSSIBLE_MULTI_TOUCH`, and dispatches exactly one
`pancancel` (zero delta, the first contact's current offsets) precisely
when the state was `PANNING`, otherwise nothing. -/
theorem C9_second_down_cancels (cfg : GestuelleConfig) (w : GWorld)
    (p1 : ActivePointer) (pid : Nat) (x y : ℚ) (pt : String) (t : ℚ)
    (hw : w.activePointers = [p1]) (hne : pid ≠ p1.id) :
    step cfg w (.pdown pid x y pt t) =
      ({ clearPressTimeout w with
          activePointers := [p1, ⟨pid, x, y, x, y, pt, t⟩]
          state := .POSSIBLE_MULTI_TOUCH
          captured := capAdd w.captured pid },
        match w.state with
        | .PANNING =>
            [.pancancel p1.currentX p1.currentY 0 0
              (p1.currentX - p1.startX) (p1.currentY - p1.startY) p1.pointerType]
        | _ => []) := by
  have hset : pointersSet w.activePointers
      { id := pid, startX := x, startY := y, currentX := x, currentY := y
        pointerType := pt, downTime := t } = [p1] ++
      [{ id := pid, startX := x, startY := y, currentX := x, currentY := y
         pointerType := pt, downTime := t }] := by
    rw [hw]
    exact pointersSet_fresh _ _ (by simpa using fun h => (hne h.symm).elim)
  simp only [step, onPointerDown, hset]
  rw [clearPressTimeout_set_pointers]
  simp

/-- C9 witness: a second contact-down during a pan cancels the pan with
the first contact's offsets and enters `POSSIBLE_MULTI_TOUCH`. -/
theorem C9_witness :
    step defaultConfig
      ⟨[⟨1, 0, 0, 30, 40, "t", 0⟩], .PANNING, none, [], 1, [1]⟩
      (.pdown 2 50 50 "t" 10)
      = (⟨[⟨1, 0, 0, 30, 40, "t", 0⟩, ⟨2, 50, 50, 50, 50, "t", 10⟩],
          .POSSIBLE_MULTI_TOUCH, none, [], 1, [1, 2]⟩,
         [.pancancel 30 40 0 0 30 40 "t"]) := by
  have h := C9_second_down_cancels defaultConfig
    ⟨[⟨1, 0, 0, 30, 40, "t", 0⟩], .PANNING, none, [], 1, [1]⟩
    ⟨1, 0, 0, 30, 40, "t", 0⟩ 2 50 50 "t" 10 rfl (by decide)
  simpa [capAdd, clearPressTimeout] using h

/-- C4 amended: a contact-down with a fresh id while two or more contacts
are tracked *is appended to the tracked set*, but is not captured, no
notification is dispatched, and the state and all previously tracked
contacts are unchanged. -/
theorem C4_third_down_amended (cfg : GestuelleConfig) (w : GWorld)
    (pid : Nat) (x y : ℚ) (pt : String) (t : ℚ)
    (hlen : 2 ≤ w.activePointers.length)
    (hfresh : ∀ p ∈ w.activePointers, p.id ≠ pid) :
    step cfg w (.pdown pid x y pt t) =
      ({ w with activePointers := w.activePointers ++ [⟨pid, x, y, x, y, pt, t⟩] },
        []) := by
  have hset := pointersSet_fresh w.activePointers
    { id := pid, startX := x, startY := y, currentX := x, currentY := y
      pointerType := pt, downTime := t } (by simpa using hfresh)
  simp only [step, onPointerDown, hset]
  rw [if_neg, if_neg]
  · simp only [List.length_append, List.length_cons, List.length_nil]
    omega
  · simp only [List.length_append, List.length_cons, List.length_nil]
    omega

/-- C4 witness: with contacts 1 and 2 tracked in `POSSIBLE_MULTI_TOUCH`,
a contact-down for id 3 appends the contact and changes nothing else. -/
theorem C4_third_down_witness :
    step defaultConfig
      ⟨[⟨1, 0, 0, 0, 0, "t", 0⟩, ⟨2, 9, 0, 9, 0, "t", 0⟩],
        .POSSIBLE_MULTI_TOUCH, none, [], 1, [1, 2]⟩
      (.pdown 3 20 0 "t" 4)
      = (⟨[⟨1, 0, 0, 0, 0, "t", 0⟩, ⟨2, 9, 0, 9, 0, "t", 0⟩,
           ⟨3, 20, 0, 20, 0, "t", 4⟩],
          .POSSIBLE_MULTI_TOUCH, none, [], 1, [1, 2]⟩, []) := by
  have h := C4_third_down_amended defaultConfig
    ⟨[⟨1, 0, 0, 0, 0, "t", 0⟩, ⟨2, 9, 0, 9, 0, "t", 0⟩],
      .POSSIBLE_MULTI_TOUCH, none, [], 1, [1, 2]⟩
    3 20 0 "t" 4 (by decide) (by decide)
  simpa using h

/-- Division by a nonzero rational is finite JavaScript division. -/
theorem jsDiv_ne (a b : ℚ) (h : b ≠ 0) : jsDiv a b = .fin (a / b) := by
  simp [jsDiv, h]

/-- On a finite nonnegative squared quantity the extended comparison is the
rational one. -/
theorem sqrtGeE_fin (q b : ℚ) (h : 0 ≤ q) :
    sqrtGeE (.fin q) b = sqrtGeB q b := by
  simp [sqrtGeE, not_lt.mpr h]

/-- C6 amended: while two contacts are tracked, the move on which the
inter-contact distance first reaches `pinch.threshold` dispatches exactly
one `pinchstart` immediately followed by exactly one `pinchmove` (both
with the midpoint of the start positions and the live distance) and
enters `PINCHING`; every move processed while already `PINCHING`
dispatches exactly one `pinchmove`. -/
theorem C6_pinch_amended (cfg : GestuelleConfig) (w : GWorld)
    (p other : ActivePointer) (pid : Nat) (x y now : ℚ)
    (hget : pointersGet w.activePointers pid = some p)
    (hlen : w.activePointers.length = 2)
    (hother : (pointersSet w.activePointers
        { p with currentX := x, currentY := y }).find?
        (fun q => q.id ≠ pid) = some other) :
    (w.state = .POSSIBLE_MULTI_TOUCH →
      sqrtGeB ((other.currentX - x) ^ 2 + (other.currentY - y) ^ 2)
          cfg.pinchThreshold = true →
      (step cfg w (.pmove pid x y now)).1.state = .PINCHING
        ∧ (step cfg w (.pmove pid x y now)).2 =
          [.pinchstart ((p.startX + other.startX) / 2) ((p.startY + other.startY) / 2)
             p.pointerType ((p.startX + other.startX) / 2) ((p.startY + other.startY) / 2)
             ((other.currentX - x) ^ 2 + (other.currentY - y) ^ 2),
           .pinchmove ((p.startX + other.startX) / 2) ((p.startY + other.startY) / 2)
             p.pointerType ((p.startX + other.startX) / 2) ((p.startY + other.startY) / 2)
             ((other.currentX - x) ^ 2 + (other.currentY - y) ^ 2)])
    ∧ (w.state = .PINCHING →
      (step cfg w (.pmove pid x y now)).2 =
        [.pinchmove ((p.startX + other.startX) / 2) ((p.startY + other.startY) / 2)
           p.pointerType ((p.startX + other.startX) / 2) ((p.startY + other.startY) / 2)
           ((other.currentX - x) ^ 2 + (other.currentY - y) ^ 2)]) := by
  have hp := pointersGet_some _ _ _ hget
  have hlen2 : (pointersSet w.activePointers
      { p with currentX := x, currentY := y }).length = 2 := by
    rw [pointersSet_length_of_mem, hlen]
    exact ⟨p, hp.1, by simpa using hp.2⟩
  have hother2 : (pointersSet w.activePointers
      { p with currentX := x, currentY := y }).find?
      (fun q => !decide (q.id = pid)) = some other := by
    simpa [decide_not] using hother
  constructor
  · intro hst hth
    constructor
    · simp [step, onPointerMove, hget, hlen2, hother2, hst, hth]
    · simp [step, onPointerMove, hget, hlen2, hother2, hst, hth]
  · intro hst
    simp [step, onPointerMove, hget, hlen2, hother2, hst]

/-- C6 witness: two contacts at distance 10 in `POSSIBLE_MULTI_TOUCH`;
moving contact 2 to distance 30 dispatches exactly one `pinchstart`
followed by one `pinchmove` and enters `PINCHING`. -/
theorem C6_pinch_witness :
    (step defaultConfig
        ⟨[⟨1, 50, 10, 50, 10, "touch", 0⟩, ⟨2, 60, 10, 60, 10, "touch", 0⟩],
          .POSSIBLE_MULTI_TOUCH, none, [], 2, [1, 2]⟩
        (.pmove 2 80 10 1)).1.state = .PINCHING
      ∧ (step defaultConfig
        ⟨[⟨1, 50, 10, 50, 10, "touch", 0⟩, ⟨2, 60, 10, 60, 10, "touch", 0⟩],
          .POSSIBLE_MULTI_TOUCH, none, [], 2, [1, 2]⟩
        (.pmove 2 80 10 1)).2 =
        [.pinchstart 55 10 "touch" 55 10 900, .pinchmove 55 10 "touch" 55 10 900] := by
  have h := (C6_pinch_amended defaultConfig
    ⟨[⟨1, 50, 10, 50, 10, "touch", 0⟩, ⟨2, 60, 10, 60, 10, "touch", 0⟩],
      .POSSIBLE_MULTI_TOUCH, none, [], 2, [1, 2]⟩
    ⟨2, 60, 10, 60, 10, "touch", 0⟩ ⟨1, 50, 10, 50, 10, "touch", 0⟩
    2 80 10 1 rfl rfl rfl).1 rfl (by norm_num [sqrtGeB, defaultConfig])
  norm_num at h
  exact h

/-- C7: a release from `PANNING` with positive duration dispatches a
`swipe` iff velocity ≥ `swipe.minVelocity`, distance ≥ `swipe.minDistance`
and duration ≤ `swipe.maxDuration` (velocity components being offset over
duration per axis), with the direction chosen by comparing |offsetX| with
|offsetY| (strictly greater picks the horizontal axis, so ties go
vertical) and the sign of that offset; otherwise it dispatches a `panend`
with zero delta and the final offsets. -/
theorem C7_swipe_iff (cfg : GestuelleConfig) (w : GWorld) (p : ActivePointer)
    (now : ℚ) (hw : w.activePointers = [p]) (hs : w.state = .PANNING)
    (hd : 0 < now - p.downTime) :
    ((sqrtGeB (((p.currentX - p.startX) / (now - p.downTime)) ^ 2
          + ((p.currentY - p.startY) / (now - p.downTime)) ^ 2)
          cfg.swipeMinVelocity = true
        ∧ sqrtGeB ((p.currentX - p.startX) ^ 2 + (p.currentY - p.startY) ^ 2)
          cfg.swipeMinDistance = true
        ∧ now - p.downTime ≤ cfg.swipeMaxDuration) →
      (step cfg w (.pup p.id now)).2 =
        [.swipe p.currentX p.currentY p.pointerType
          (.fin ((p.currentX - p.startX) / (now - p.downTime)))
          (.fin ((p.currentY - p.startY) / (now - p.downTime)))
          (.fin (((p.currentX - p.startX) / (now - p.downTime)) ^ 2
            + ((p.currentY - p.startY) / (now - p.downTime)) ^ 2))
          (if |p.currentX - p.startX| > |p.currentY - p.startY| then
            (if p.currentX - p.startX > 0 then .right else .left)
          else
            (if p.currentY - p.startY > 0 then .down else .up))
          ((p.currentX - p.startX) ^ 2 + (p.currentY - p.startY) ^ 2)])
    ∧ (¬ (sqrtGeB (((p.currentX - p.startX) / (now - p.downTime)) ^ 2
          + ((p.currentY - p.startY) / (now - p.downTime)) ^ 2)
          cfg.swipeMinVelocity = true
        ∧ sqrtGeB ((p.currentX - p.startX) ^ 2 + (p.currentY - p.startY) ^ 2)
          cfg.swipeMinDistance = true
        ∧ now - p.downTime ≤ cfg.swipeMaxDuration) →
      (step cfg w (.pup p.id now)).2 =
        [.panend p.currentX p.currentY 0 0 (p.currentX - p.startX)
          (p.currentY - p.startY) p.pointerType]) := by
  have hne : now - p.downTime ≠ 0 := ne_of_gt hd
  have hget : pointersGet w.activePointers p.id = some p := by
    rw [hw]
    simp [pointersGet]
  have hdel : pointersDelete w.activePointers p.id = [] := by
    rw [hw]
    simp [pointersDelete]
  have hvel : addE (sqE (jsDiv (p.currentX - p.startX) (now - p.downTime)))
      (sqE (jsDiv (p.currentY - p.startY) (now - p.downTime)))
      = .fin (((p.currentX - p.startX) / (now - p.downTime)) ^ 2
          + ((p.currentY - p.startY) / (now - p.downTime)) ^ 2) := by
    rw [jsDiv_ne _ _ hne, jsDiv_ne _ _ hne]
    rfl
  have hnn : (0 : ℚ) ≤ ((p.currentX - p.startX) / (now - p.downTime)) ^ 2
      + ((p.currentY - p.startY) / (now - p.downTime)) ^ 2 := by positivity
  constructor
  · intro hq
    simp [step, onPointerUp, hget, hdel, hs, jsDiv_ne _ _ hne, sqE, addE,
      sqrtGeE_fin _ _ hnn, hq.1, hq.2.1, hq.2.2]
  · intro hq
    simp only [step, onPointerUp, hget, hdel, hs, jsDiv_ne _ _ hne, sqE, addE,
      sqrtGeE_fin _ _ hnn]
    rw [if_neg hq]
    simp

/-- C7 witness: a pan released at offsets (40, 0) after 100 ms qualifies
(velocity 0.4 ≥ 0.3, distance 40 ≥ 30, duration 100 ≤ 300) and dispatches
a rightward swipe. -/
theorem C7_swipe_witness :
    (step defaultConfig
        ⟨[⟨1, 0, 0, 40, 0, "m", 0⟩], .PANNING, none, [], 1, [1]⟩
        (.pup 1 100)).2 =
      [.swipe 40 0 "m" (.fin (2 / 5)) (.fin 0) (.fin (4 / 25)) .right 1600] := by
  have h := (C7_swipe_iff defaultConfig
    ⟨[⟨1, 0, 0, 40, 0, "m", 0⟩], .PANNING, none, [], 1, [1]⟩
    ⟨1, 0, 0, 40, 0, "m", 0⟩ 100 rfl rfl (by norm_num)).1
    (by norm_num [sqrtGeB, defaultConfig])
  norm_num at h
  exact h

/-- Running an appended event list runs the two parts in sequence and
concatenates the dispatch logs. -/
theorem runEvents_append (cfg : GestuelleConfig) (w : GWorld)
    (es1 es2 : List PEvent) :
    runEvents cfg w (es1 ++ es2) =
      ((runEvents cfg (runEvents cfg w es1).1 es2).1,
        (runEvents cfg w es1).2 ++ (runEvents cfg (runEvents cfg w es1).1 es2).2) := by
  induction es1 generalizing w with
  | nil => simp [runEvents]
  | cons e es ih => simp [runEvents, ih]

/-- The first contact-down from the initial state yields the single-contact
`POSSIBLE_TAP` world with the press timer armed. -/
theorem step_down_init (cfg : GestuelleConfig) (pid : Nat) (x0 y0 : ℚ)
    (pt : String) (t0 : ℚ) :
    step cfg initWorld (.pdown pid x0 y0 pt t0)
      = (tapWorld pid x0 y0 x0 y0 pt t0, []) := by
  simp [step, onPointerDown, initWorld, pointersSet, tapWorld, capAdd]

/-- A move that stays strictly inside the pan threshold keeps the
single-contact `POSSIBLE_TAP` world, only updating the current position,
and dispatches nothing. -/
theorem step_move_tapWorld (cfg : GestuelleConfig) (pid : Nat)
    (x0 y0 cx cy : ℚ) (pt : String) (t0 mx my mt : ℚ)
    (h : sqrtGeB ((mx - x0) ^ 2 + (my - y0) ^ 2) cfg.panThreshold = false) :
    step cfg (tapWorld pid x0 y0 cx cy pt t0) (.pmove pid mx my mt)
      = (tapWorld pid x0 y0 mx my pt t0, []) := by
  simp [step, onPointerMove, tapWorld, pointersGet, pointersSet, h]

/-- The last position of a move list with a later start point. -/
theorem finalPos_cons (cx cy : ℚ) (m : ℚ × ℚ × ℚ) (ms : List (ℚ × ℚ × ℚ)) :
    finalPos cx cy (m :: ms) = finalPos m.1 m.2.1 ms := by
  rfl

/-- Running a list of in-threshold moves on the single-contact
`POSSIBLE_TAP` world moves the current position to the last sample and
dispatches nothing. -/
theorem run_moves_tapWorld (cfg : GestuelleConfig) (pid : Nat) (x0 y0 : ℚ)
    (pt : String) (t0 : ℚ) (moves : List (ℚ × ℚ × ℚ)) (cx cy : ℚ)
    (h : ∀ m ∈ moves, sqrtGeB ((m.1 - x0) ^ 2 + (m.2.1 - y0) ^ 2) cfg.panThreshold = false) :
    runEvents cfg (tapWorld pid x0 y0 cx cy pt t0)
        (moves.map (fun m => .pmove pid m.1 m.2.1 m.2.2))
      = (tapWorld pid x0 y0 (finalPos cx cy moves).1 (finalPos cx cy moves).2 pt t0,
         []) := by
  induction moves generalizing cx cy with
  | nil => simp [runEvents, finalPos]
  | cons m ms ih =>
      simp only [List.map_cons, runEvents]
      rw [step_move_tapWorld cfg pid x0 y0 cx cy pt t0 m.1 m.2.1 m.2.2
        (h m (List.mem_cons_self m ms))]
      rw [finalPos_cons]
      simp only []
      rw [ih m.1 m.2.1 (fun q hq => h q (List.mem_cons_of_mem m hq))]
      simp

/-- A release of the sole contact in `POSSIBLE_TAP` within the tap bounds
dispatches exactly one `tap` at the contact's current position. -/
theorem step_up_tapWorld (cfg : GestuelleConfig) (pid : Nat)
    (x0 y0 cx cy : ℚ) (pt : String) (t0 tUp : ℚ)
    (hd : tUp - t0 ≤ cfg.tapMaxDuration)
    (hdist : sqrtLeB ((cx - x0) ^ 2 + (cy - y0) ^ 2) cfg.tapMaxDistance = true) :
    (step cfg (tapWorld pid x0 y0 cx cy pt t0) (.pup pid tUp)).2
      = [.tap cx cy pt] := by
  simp [step, onPointerUp, tapWorld, pointersGet, pointersDelete, hd, hdist]

/-- C2 amended: a single-contact sequence whose moves all stay strictly
inside `pan.threshold`, released within `tap.maxDuration` of the down and
with final distance within `tap.maxDistance`, dispatches exactly one
`tap` notification and nothing else (in particular no `pressstart` and no
pan-family notification).  (As stated the claim is false: the tap gate
compares the duration against `tap.maxDuration`, not
`press.minDuration`.) -/
theorem C2_tap_amended (cfg : GestuelleConfig) (pid : Nat) (pt : String)
    (x0 y0 t0 : ℚ) (moves : List (ℚ × ℚ × ℚ)) (tUp : ℚ)
    (hm : ∀ m ∈ moves, sqrtGeB ((m.1 - x0) ^ 2 + (m.2.1 - y0) ^ 2) cfg.panThreshold = false)
    (hd : tUp - t0 ≤ cfg.tapMaxDuration)
    (hdist : sqrtLeB (((finalPos x0 y0 moves).1 - x0) ^ 2
        + ((finalPos x0 y0 moves).2 - y0) ^ 2) cfg.tapMaxDistance = true) :
    (runEvents cfg initWorld (singleContactTrace pid pt x0 y0 t0 moves tUp)).2
      = [.tap (finalPos x0 y0 moves).1 (finalPos x0 y0 moves).2 pt] := by
  have h1 := step_down_init cfg pid x0 y0 pt t0
  have h2 := run_moves_tapWorld cfg pid x0 y0 pt t0 moves x0 y0 hm
  have h3 := step_up_tapWorld cfg pid x0 y0 (finalPos x0 y0 moves).1
    (finalPos x0 y0 moves).2 pt t0 tUp hd hdist
  unfold singleContactTrace
  simp [runEvents_append, h1, h2, h3, runEvents]

/-- C2 witness: down at (0,0), a small move to (3,0), release at 100 ms —
exactly one `tap` is dispatched. -/
theorem C2_tap_witness :
    (runEvents defaultConfig initWorld
        (singleContactTrace 1 "m" 0 0 0 [(3, 0, 50)] 100)).2 = [.tap 3 0 "m"] := by
  have h := C2_tap_amended defaultConfig 1 "m" 0 0 0 [(3, 0, 50)] 100
    (by
      intro m hm
      simp only [List.mem_singleton] at hm
      subst hm
      norm_num [sqrtGeB, defaultConfig])
    (by norm_num [defaultConfig])
    (by norm_num [sqrtLeB, finalPos, defaultConfig])
  norm_num [finalPos] at h
  exact h

/-- Map `set` never produces an empty map. -/
theorem pointersSet_ne_nil (l : List ActivePointer) (ap : ActivePointer) :
    pointersSet l ap ≠ [] := by
  unfold pointersSet
  split
  · rename_i h
    intro hc
    rw [List.map_eq_nil_iff] at hc
    subst hc
    simp at h
  · simp

/-- Resetting the gesture state lands in `IDLE`. -/
@[simp] theorem resetGestureState_state (w : GWorld) :
    (resetGestureState w).state = .IDLE := by
  simp [resetGestureState]

/-- Resetting the gesture state clears the tracked contacts. -/
@[simp] theorem resetGestureState_pointers (w : GWorld) :
    (resetGestureState w).activePointers = [] := by
  simp [resetGestureState]

/-- Resetting the gesture state clears the stored press-timer handle. -/
@[simp] theorem resetGestureState_timeoutId (w : GWorld) :
    (resetGestureState w).pressTimeoutId = none := by
  simp [resetGestureState]

/-- A move event on a tracked contact leaves `activePointers` as the map
with that contact's position updated, whatever branch runs. -/
theorem move_pointers_eq (cfg : GestuelleConfig) (w : GWorld) (pid : Nat)
    (x y now : ℚ) (p : ActivePointer)
    (hget : pointersGet w.activePointers pid = some p) :
    ((step cfg w (.pmove pid x y now)).1).activePointers
      = pointersSet w.activePointers { p with currentX := x, currentY := y } := by
  cases hst : w.state <;>
    simp only [step, onPointerMove, hget, hst] <;>
    (repeat' split) <;>
    simp

/-- One step preserves the "no contacts implies `IDLE`" property. -/
theorem zeroIdle_step (cfg : GestuelleConfig) (w : GWorld) (e : PEvent)
    (ih : w.activePointers = [] → w.state = .IDLE) :
    ((step cfg w e).1).activePointers = [] → ((step cfg w e).1).state = .IDLE := by
  cases e with
  | pdown pid x y pt t =>
      simp only [step, onPointerDown]
      split
      · intro h
        simp at h
        exact absurd h (pointersSet_ne_nil _ _)
      · split
        · intro h
          simp at h
          exact absurd h (pointersSet_ne_nil _ _)
        · intro h
          simp at h
          exact absurd h (pointersSet_ne_nil _ _)
  | pmove pid x y now =>
      cases hget : pointersGet w.activePointers pid with
      | none =>
          simp only [step, onPointerMove, hget]
          exact ih
      | some p =>
          intro hres
          exfalso
          refine pointersSet_ne_nil w.activePointers
            { p with currentX := x, currentY := y } ?_
          rw [← move_pointers_eq cfg w pid x y now p hget]
          exact hres
  | pup pid now =>
      cases hget : pointersGet w.activePointers pid with
      | none =>
          simp only [step, onPointerUp, hget]
          exact ih
      | some p =>
          simp only [step, onPointerUp, hget]
          split
          · rename_i hlen1
            cases hst : w.state <;>
              simp only [hst] <;>
              (repeat' split) <;>
              intro hres <;>
              simp at hres <;>
              rw [hres] at hlen1 <;>
              simp at hlen1
          · (repeat' split) <;> intro _ <;> simp
  | pcancel pid now =>
      cases hget : pointersGet w.activePointers pid with
      | none =>
          simp only [step, onPointerCancel, hget]
          exact ih
      | some p =>
          simp only [step, onPointerCancel, hget]
          intro _
          simp
  | pfire h now =>
      simp only [step]
      split
      · simp only [onPressTimeout]
        split
        · rename_i hst
          split
          · rename_i pointer hhd
            split
            · intro hres
              rw [hres] at hhd
              simp at hhd
            · intro _
              simp
          · rename_i hhd
            intro hres
            have : w.activePointers = [] := by
              simpa using hres
            rw [ih this] at hst
            exact absurd hst.symm (by simp)
        · rename_i hst
          intro hres
          have : w.activePointers = [] := by
            simpa using hres
          simpa using ih this
      · exact ih

/-- Running any event list preserves the "no contacts implies `IDLE`"
property. -/
theorem zeroIdle_run (cfg : GestuelleConfig) (es : List PEvent) (w : GWorld)
    (h : w.activePointers = [] → w.state = .IDLE) :
    ((runEvents cfg w es).1).activePointers = []
      → ((runEvents cfg w es).1).state = .IDLE := by
  induction es generalizing w with
  | nil => simpa [runEvents] using h
  | cons e es ih =>
      simp only [runEvents]
      exact ih _ (zeroIdle_step cfg w e h)

/-- C3 amended: in every reachable recognizer state, zero tracked contacts
implies state `IDLE`; the multi-contact states therefore hold only with at
least one tracked contact.  (As stated the claim is false: after one of
two contacts is released the state remains `POSSIBLE_MULTI_TOUCH` or
`PINCHING` with a single tracked contact, and a third contact-down keeps a
multi-contact state with three tracked contacts.) -/
theorem C3_zero_idle_amended (cfg : GestuelleConfig) (w : GWorld)
    (hr : Reachable cfg w) :
    (w.activePointers.length = 0 → w.state = .IDLE)
      ∧ ((w.state = .POSSIBLE_MULTI_TOUCH ∨ w.state = .PINCHING) →
          1 ≤ w.activePointers.length) := by
  obtain ⟨es, rfl⟩ := hr
  have h0 := zeroIdle_run cfg es initWorld (fun _ => rfl)
  constructor
  · intro hl
    exact h0 (List.length_eq_zero.mp hl)
  · intro hs
    by_contra hlt
    push_neg at hlt
    have h1 : ((runEvents cfg initWorld es).1).activePointers = [] :=
      List.length_eq_zero.mp (by omega)
    have h2 := h0 h1
    rcases hs with h | h <;> rw [h] at h2 <;> exact absurd h2 (by simp)

/-- C3 witness: the invariant instantiated at the initial state. -/
theorem C3_zero_idle_witness :
    (initWorld.activePointers.length = 0 → initWorld.state = .IDLE)
      ∧ ((initWorld.state = .POSSIBLE_MULTI_TOUCH ∨ initWorld.state = .PINCHING) →
          1 ≤ initWorld.activePointers.length) :=
  C3_zero_idle_amended defaultConfig initWorld ⟨[], rfl⟩

/-- Under the timer bookkeeping invariant, cancelling leaves no armed
handles. -/
theorem clearPressTimeout_armed_nil (w : GWorld)
    (h : w.armedTimers = timerList w.pressTimeoutId) :
    (clearPressTimeout w).armedTimers = [] := by
  cases hp : w.pressTimeoutId with
  | none =>
      simp only [clearPressTimeout, hp]
      rw [h, hp]
      simp [timerList]
  | some a =>
      simp only [clearPressTimeout, hp]
      rw [h, hp]
      simp [timerList]

/-- Resetting the gesture state leaves no armed handles, under the timer
bookkeeping invariant. -/
theorem resetGestureState_armed_nil (w : GWorld)
    (h : w.armedTimers = timerList w.pressTimeoutId) :
    (resetGestureState w).armedTimers = [] := by
  unfold resetGestureState
  exact clearPressTimeout_armed_nil _ (by simpa using h)

/-- Cancelling the press timer of a world with no armed handles leaves no
armed handles. -/
theorem clearPressTimeout_armed_nil_of_nil (w : GWorld)
    (h : w.armedTimers = []) : (clearPressTimeout w).armedTimers = [] := by
  cases hp : w.pressTimeoutId <;> simp [clearPressTimeout, hp, h]

/-- Resetting a world with no armed handles leaves no armed handles. -/
theorem resetGestureState_armed_nil_of_nil (w : GWorld)
    (h : w.armedTimers = []) : (resetGestureState w).armedTimers = [] := by
  unfold resetGestureState
  exact clearPressTimeout_armed_nil_of_nil _ (by simpa using h)

/-- One duplicate-free step preserves the timer bookkeeping invariant. -/
theorem timerInv_step (cfg : GestuelleConfig) (w : GWorld) (e : PEvent)
    (hok : eventOk w e = true) (ih : timerInv w) : timerInv (step cfg w e).1 := by
  obtain ⟨ih1, ih2⟩ := ih
  cases e with
  | pdown pid x y pt t =>
      have hfresh : ∀ p ∈ w.activePointers, p.id ≠ pid := by
        simpa [eventOk, List.all_eq_true] using hok
      have hset := pointersSet_fresh w.activePointers ⟨pid, x, y, x, y, pt, t⟩
        (by simpa using hfresh)
      by_cases h0 : w.activePointers.length = 0
      · have htid := ih2 h0
        have harm : w.armedTimers = [] := by
          rw [ih1, htid]
          rfl
        have hnil : w.activePointers = [] := List.length_eq_zero.mp h0
        simp [step, onPointerDown, hnil, pointersSet, timerInv, timerList, harm, htid]
      · by_cases h1 : w.activePointers.length = 1
        · simp only [step, onPointerDown, hset]
          rw [if_neg, if_pos]
          · refine ⟨?_, ?_⟩
            · simp [clearPressTimeout_set_pointers, timerList,
                clearPressTimeout_armed_nil w ih1]
            · intro hcon
              simp
          · simp [List.length_append, h1]
          · simp [List.length_append, h1]
        · simp only [step, onPointerDown, hset]
          rw [if_neg, if_neg]
          · refine ⟨ih1, ?_⟩
            intro hcon
            simp only [List.length_append, List.length_cons, List.length_nil] at hcon
            omega
          · simp only [List.length_append, List.length_cons, List.length_nil]
            omega
          · simp only [List.length_append, List.length_cons, List.length_nil]
            omega
  | pmove pid x y now =>
      cases hget : pointersGet w.activePointers pid with
      | none =>
          simp only [step, onPointerMove, hget]
          exact ⟨ih1, ih2⟩
      | some p =>
          refine ⟨?_, ?_⟩
          · cases hst : w.state <;>
              simp only [step, onPointerMove, hget, hst] <;>
              (repeat' split) <;>
              first
                | exact ih1
                | (simp only [timerList, clearPressTimeout_timeoutId]
                   exact clearPressTimeout_armed_nil _ ih1)
          · intro hcon
            exfalso
            refine pointersSet_ne_nil w.activePointers
              { p with currentX := x, currentY := y } ?_
            refine List.length_eq_zero.mp ?_
            rw [← move_pointers_eq cfg w pid x y now p hget]
            exact hcon
  | pup pid now =>
      cases hget : pointersGet w.activePointers pid with
      | none =>
          simp only [step, onPointerUp, hget]
          exact ⟨ih1, ih2⟩
      | some p =>
          simp only [step, onPointerUp, hget]
          split
          · rename_i hlen1
            (repeat' split) <;>
              refine ⟨ih1, fun hcon => ?_⟩ <;>
              (simp only [] at hcon; rw [hcon] at hlen1; simp at hlen1)
          · split
            · (repeat' split) <;>
                refine ⟨?_, fun _ => by simp⟩ <;>
                simp only [timerList, resetGestureState_timeoutId] <;>
                first
                  | exact resetGestureState_armed_nil _ ih1
                  | exact resetGestureState_armed_nil_of_nil _
                      (clearPressTimeout_armed_nil _ ih1)
            · refine ⟨?_, fun _ => by simp⟩
              simp only [timerList, resetGestureState_timeoutId]
              exact resetGestureState_armed_nil _ ih1
  | pcancel pid now =>
      cases hget : pointersGet w.activePointers pid with
      | none =>
          simp only [step, onPointerCancel, hget]
          exact ⟨ih1, ih2⟩
      | some p =>
          simp only [step, onPointerCancel, hget]
          refine ⟨?_, fun _ => by simp⟩
          simp only [timerList, resetGestureState_timeoutId]
          exact resetGestureState_armed_nil_of_nil _
            (clearPressTimeout_armed_nil _ ih1)
  | pfire h now =>
      by_cases harm : h ∈ w.armedTimers
      · have htid : w.pressTimeoutId = some h := by
          cases hp : w.pressTimeoutId with
          | none =>
              rw [ih1, hp] at harm
              simp [timerList] at harm
          | some a =>
              rw [ih1, hp] at harm
              simp [timerList] at harm
              exact congrArg some harm.symm
        have harm1 : w.armedTimers = [h] := by
          rw [ih1, htid]
          rfl
        simp only [step, if_pos harm, onPressTimeout]
        cases hst : w.state <;> simp only [hst]
        all_goals try exact ⟨by simp [harm1, timerList], fun _ => rfl⟩
        cases hhd : w.activePointers.head? with
        | none =>
            simp only [hhd]
            exact ⟨by simp [harm1, timerList], fun _ => rfl⟩
        | some q =>
            simp only [hhd]
            split
            · exact ⟨by simp [harm1, timerList], fun _ => rfl⟩
            · refine ⟨?_, fun _ => rfl⟩
              simp only [timerList]
              exact resetGestureState_armed_nil_of_nil _ (by simp [harm1])
      · simp only [step, if_neg harm]
        exact ⟨ih1, ih2⟩

/-- A duplicate-free run preserves the timer bookkeeping invariant. -/
theorem timerInv_run (cfg : GestuelleConfig) (es : List PEvent) (w : GWorld)
    (hok : runOk cfg w es = true) (ih : timerInv w) :
    timerInv (runEvents cfg w es).1 := by
  induction es generalizing w with
  | nil => simpa [runEvents] using ih
  | cons e es ihe =>
      simp only [runOk, Bool.and_eq_true] at hok
      simp only [runEvents]
      exact ihe _ hok.2 (timerInv_step cfg w e hok.1 ih)

/-- C8 amended: on every run in which no contact-down reuses an
already-tracked contact id, at most one press-timer callback is armed and
not yet fired or cancelled at any time.  (As stated the claim is false: a
contact-down reusing the tracked id arms a second timer without
cancelling the first.) -/
theorem C8_single_timer_amended (cfg : GestuelleConfig) (es : List PEvent)
    (hok : runOk cfg initWorld es = true) :
    ((runEvents cfg initWorld es).1).armedTimers.length ≤ 1 := by
  have h := timerInv_run cfg es initWorld hok ⟨rfl, fun _ => rfl⟩
  rw [h.1]
  cases ((runEvents cfg initWorld es).1).pressTimeoutId <;> simp [timerList]

/-- C8 witness: along the duplicate-free run with two distinct contacts
pressed, at most one press timer is ever armed. -/
theorem C8_single_timer_witness :
    ((runEvents defaultConfig initWorld
        [.pdown 1 0 0 "m" 0, .pdown 2 3 4 "m" 5]).1).armedTimers.length ≤ 1 :=
  C8_single_timer_amended defaultConfig
    [.pdown 1 0 0 "m" 0, .pdown 2 3 4 "m" 5] (by decide)

/-- C1: evaluation at the failing input.  A contact goes down at (0,0)
and moves to (10,0) and then (25,0); the recognizer dispatches `panstart`
and `panmove` whose `deltaX`/`deltaY` are `0`, although the displacement
since the previous sample is `(10,0)` resp. `(15,0)` — the source
overwrites `pointer.currentX/currentY` before computing the delta, so the
dispatched delta never equals current minus previous position. -/
theorem C1_delta_always_zero_eval :
    (runEvents defaultConfig initWorld
      [.pdown 1 0 0 "mouse" 0, .pmove 1 10 0 1, .pmove 1 25 0 2]).2
      = [.panstart 10 0 0 0 10 0 "mouse", .panmove 25 0 0 0 25 0 "mouse"]
      ∧ (10 : ℚ) - 0 ≠ 0 ∧ (25 : ℚ) - 10 ≠ 0 := by
  norm_num [runEvents, step, onPointerDown, onPointerMove, onPointerUp, onPointerCancel,
    onPressTimeout, clearPressTimeout, resetGestureState, pointersSet, pointersGet,
    pointersDelete, capAdd, capRemove, sqrtGeB, sqrtLeB, sqrtGeE, jsDiv, sqE, addE,
    isFiniteE, defaultConfig, initWorld]

/-- C5: evaluation at the failing input.  A pan ends with offsets (40,30)
at zero elapsed duration; the source divides by the zero duration, obtains
infinite velocities, and the swipe qualification passes, so a `swipe`
carrying non-finite `velocityX`/`velocityY`/`velocity` fields is
dispatched instead of the `panend` the claim requires. -/
theorem C5_zero_duration_swipe_eval :
    (runEvents defaultConfig initWorld
      [.pdown 1 0 0 "touch" 0, .pmove 1 40 30 0, .pup 1 0]).2
      = [.panstart 40 30 0 0 40 30 "touch",
         .swipe 40 30 "touch" .posInf .posInf .posInf .right 2500]
      ∧ isFiniteE .posInf = false := by
  norm_num [runEvents, step, onPointerDown, onPointerMove, onPointerUp, onPointerCancel,
    onPressTimeout, clearPressTimeout, resetGestureState, pointersSet, pointersGet,
    pointersDelete, capAdd, capRemove, sqrtGeB, sqrtLeB, sqrtGeE, jsDiv, sqE, addE,
    isFiniteE, defaultConfig, initWorld]

/-- C2: counterexample.  The single-contact sequence down at (0,0) at
time 0 and up at time 300 releases before `press.minDuration` (500) with
final distance 0 ≤ `tap.maxDistance`, yet dispatches no `tap` at all:
the tap gate uses `tap.maxDuration` (250), not `press.minDuration`. -/
theorem C2_tap_before_press_counterexample : ¬ tapBeforePressClaim defaultConfig := by
  intro h
  have h2 := h 1 "mouse" 0 0 0 [] 300
    (by norm_num [defaultConfig])
    (by norm_num [sqrtLeB, finalPos, defaultConfig])
  norm_num [countNotif, isTapNotif, isPressStartNotif, isPanNotif, singleContactTrace,
    runEvents, step, onPointerDown, onPointerMove, onPointerUp, onPointerCancel,
    onPressTimeout, clearPressTimeout, resetGestureState, pointersSet, pointersGet,
    pointersDelete, capAdd, capRemove, sqrtGeB, sqrtLeB, sqrtGeE, jsDiv, sqE, addE,
    isFiniteE, defaultConfig, initWorld] at h2

/-- C3: counterexample.  After two contacts go down and one is released,
the recognizer keeps state `POSSIBLE_MULTI_TOUCH` while tracking exactly
one contact, so the reachable state `down(1), down(2), up(1)` violates the
claimed consistency between state and contact count. -/
theorem C3_state_contact_counterexample :
    ¬ ∀ w, Reachable defaultConfig w → stateContactConsistent w := by
  intro h
  have h2 := h (runEvents defaultConfig initWorld
      [.pdown 1 0 0 "touch" 0, .pdown 2 10 0 "touch" 0, .pup 1 5]).1
    ⟨[.pdown 1 0 0 "touch" 0, .pdown 2 10 0 "touch" 0, .pup 1 5], rfl⟩
  norm_num [stateContactConsistent, runEvents, step, onPointerDown, onPointerMove, onPointerUp, onPointerCancel,
    onPressTimeout, clearPressTimeout, resetGestureState, pointersSet, pointersGet,
    pointersDelete, capAdd, capRemove, sqrtGeB, sqrtLeB, sqrtGeE, jsDiv, sqE, addE,
    isFiniteE, defaultConfig, initWorld] at h2

/-- C4: counterexample.  With contacts 1 and 2 tracked, a contact-down for
the fresh id 3 is *not* ignored: the source adds it to `activePointers`
before the early return, so the tracked set changes. -/
theorem C4_third_contact_counterexample : ¬ thirdContactIgnoredClaim defaultConfig := by
  intro h
  have h2 := h (runEvents defaultConfig initWorld
      [.pdown 1 0 0 "touch" 0, .pdown 2 10 0 "touch" 0]).1
    ⟨[.pdown 1 0 0 "touch" 0, .pdown 2 10 0 "touch" 0], rfl⟩
    (by norm_num [runEvents, step, onPointerDown, onPointerMove, onPointerUp, onPointerCancel,
    onPressTimeout, clearPressTimeout, resetGestureState, pointersSet, pointersGet,
    pointersDelete, capAdd, capRemove, sqrtGeB, sqrtLeB, sqrtGeE, jsDiv, sqE, addE,
    isFiniteE, defaultConfig, initWorld]) 3 20 0 "touch" 1
    (by norm_num [runEvents, step, onPointerDown, onPointerMove, onPointerUp, onPointerCancel,
    onPressTimeout, clearPressTimeout, resetGestureState, pointersSet, pointersGet,
    pointersDelete, capAdd, capRemove, sqrtGeB, sqrtLeB, sqrtGeE, jsDiv, sqE, addE,
    isFiniteE, defaultConfig, initWorld])
  have h3 := h2.1
  norm_num [runEvents, step, onPointerDown, onPointerMove, onPointerUp, onPointerCancel,
    onPressTimeout, clearPressTimeout, resetGestureState, pointersSet, pointersGet,
    pointersDelete, capAdd, capRemove, sqrtGeB, sqrtLeB, sqrtGeE, jsDiv, sqE, addE,
    isFiniteE, defaultConfig, initWorld] at h3

/-- C6: counterexample.  On the move that first brings the inter-contact
distance to the pinch threshold, the source transitions to `PINCHING` and
then falls through the non-exclusive second `if`, dispatching a
`pinchmove` right after the `pinchstart` on that same move event. -/
theorem C6_pinchstart_exclusive_counterexample :
    ¬ pinchStartExclusiveClaim defaultConfig := by
  intro h
  have h2 := h (runEvents defaultConfig initWorld
      [.pdown 1 50 10 "touch" 0, .pdown 2 60 10 "touch" 0]).1
    ⟨[.pdown 1 50 10 "touch" 0, .pdown 2 60 10 "touch" 0], rfl⟩
    (by norm_num [runEvents, step, onPointerDown, onPointerMove, onPointerUp, onPointerCancel,
    onPressTimeout, clearPressTimeout, resetGestureState, pointersSet, pointersGet,
    pointersDelete, capAdd, capRemove, sqrtGeB, sqrtLeB, sqrtGeE, jsDiv, sqE, addE,
    isFiniteE, defaultConfig, initWorld]) 1 20 10 1
    (by norm_num [runEvents, step, onPointerDown, onPointerMove, onPointerUp, onPointerCancel,
    onPressTimeout, clearPressTimeout, resetGestureState, pointersSet, pointersGet,
    pointersDelete, capAdd, capRemove, sqrtGeB, sqrtLeB, sqrtGeE, jsDiv, sqE, addE,
    isFiniteE, defaultConfig, initWorld])
  norm_num [countNotif, isPinchMoveNotif, runEvents, step, onPointerDown, onPointerMove, onPointerUp, onPointerCancel,
    onPressTimeout, clearPressTimeout, resetGestureState, pointersSet, pointersGet,
    pointersDelete, capAdd, capRemove, sqrtGeB, sqrtLeB, sqrtGeE, jsDiv, sqE, addE,
    isFiniteE, defaultConfig, initWorld] at h2

/-- C8: counterexample.  A second contact-down reusing the already-tracked
id 1 takes the single-contact branch again and arms a fresh press timer
without cancelling the first, leaving two timer callbacks outstanding. -/
theorem C8_single_timer_counterexample :
    ¬ ∀ w, Reachable defaultConfig w → atMostOneArmedTimer w := by
  intro h
  have h2 := h (runEvents defaultConfig initWorld
      [.pdown 1 0 0 "mouse" 0, .pdown 1 0 0 "mouse" 5]).1
    ⟨[.pdown 1 0 0 "mouse" 0, .pdown 1 0 0 "mouse" 5], rfl⟩
  norm_num [atMostOneArmedTimer, runEvents, step, onPointerDown, onPointerMove, onPointerUp, onPointerCancel,
    onPressTimeout, clearPressTimeout, resetGestureState, pointersSet, pointersGet,
    pointersDelete, capAdd, capRemove, sqrtGeB, sqrtLeB, sqrtGeE, jsDiv, sqE, addE,
    isFiniteE, defaultConfig, initWorld] at h2

end Gestuelle
